import Mathlib

/-!
Verification of the TCP proxy in `proxy/proxy.go` of the mockestra
repository, against its natural-language specification.

The Go code is shallowly embedded: each method of `TCPProxy` becomes a
pure Lean function over an explicit proxy state, with the outcomes of the
operating-system calls (`net.Listen`, `net.Dial`, `Conn.Close`,
`Listener.Close`, `Listener.Accept`) supplied by environment records, so
that every behaviour of the code corresponds to some choice of
environment.  Goroutine spawns (`go p.Run(...)`, `go p.handleConnection(...)`)
are modelled by recording the spawn and discarding the spawned function's
result, exactly as the `go` statement does.
-/

namespace Mockestra.Proxy

/-- An error value returned by a networking call (`error` in Go). -/
structure NetError where
  msg : String
deriving DecidableEq, Repr

/-- A bound TCP listener handle (`net.Listener`), identified by an id. -/
structure Listener where
  id : Nat
deriving DecidableEq, Repr

/-- A TCP connection handle (`net.Conn`), identified by an id. -/
structure ConnId where
  id : Nat
deriving DecidableEq, Repr

/-- The result of a Go call that can succeed, fail with an error, or
panic at runtime (a nil function call panics in Go). -/
inductive GoResult (α : Type) where
  | ok : α → GoResult α
  | err : NetError → GoResult α
  | panicked : GoResult α
deriving DecidableEq, Repr

/-- The `TCPProxy` struct of `proxy/proxy.go`.  `listener` is the stored
`net.Listener` (nil ↔ `none`); `cancel` is the stored
`context.CancelFunc`, identified by a token id (nil ↔ `none`). -/
structure TCPProxy where
  ListenAddress : String
  TargetAddress : String
  listener : Option Listener
  cancel : Option Nat
deriving DecidableEq, Repr

/-- Outcomes of the OS calls made by `Start` and `Close`:
`listen a` is the result of `net.Listen("tcp", a)`, and
`closeListener l` is the result of `l.Close()` (`none` = success). -/
structure NetEnv where
  listen : String → Except NetError Listener
  closeListener : Listener → Option NetError

/-- Everything `Start` produces: its return value, the proxy state after
the call, whether a `net.Listen` bind was performed and stored, and
whether an accept loop (`go p.Run`) was launched. -/
structure StartOutput where
  res : GoResult Unit
  proxy : TCPProxy
  didBind : Bool
  didLaunchLoop : Bool
deriving DecidableEq, Repr

/-- `TCPProxy.Start` (proxy.go lines 42-55): if `p.listener != nil`
return nil; else bind via `net.Listen`; on error return it unchanged;
on success store the listener, create and store a fresh cancel function
(`cancelId`), spawn `go p.Run(cancelCtx)` and return nil.  The `ctx`
argument of the Go method is unused by its body and omitted. -/
def TCPProxy.Start (net : NetEnv) (cancelId : Nat) (p : TCPProxy) : StartOutput :=
  if p.listener.isSome then
    { res := GoResult.ok (), proxy := p, didBind := false, didLaunchLoop := false }
  else
    match net.listen p.ListenAddress with
    | Except.error e =>
        { res := GoResult.err e, proxy := p, didBind := false, didLaunchLoop := false }
    | Except.ok l =>
        { res := GoResult.ok (),
          proxy := { p with listener := some l, cancel := some cancelId },
          didBind := true, didLaunchLoop := true }

/-- Everything `Close` produces: its return value, the proxy state after
the call (the Go body assigns to no field of `p`), and whether the
stored cancellation signal was fired. -/
structure CloseOutput where
  res : GoResult Unit
  proxy : TCPProxy
  cancelFired : Bool
deriving DecidableEq, Repr

/-- `TCPProxy.Close` (proxy.go lines 57-63): first `p.cancel()` — in Go
a call through a nil function panics, so with no stored cancel function
the call panics before anything else happens; then if `p.listener == nil`
return nil, else return `p.listener.Close()`. -/
def TCPProxy.Close (net : NetEnv) (p : TCPProxy) : CloseOutput :=
  match p.cancel with
  | none => { res := GoResult.panicked, proxy := p, cancelFired := false }
  | some _ =>
      match p.listener with
      | none => { res := GoResult.ok (), proxy := p, cancelFired := true }
      | some l =>
          match net.closeListener l with
          | none => { res := GoResult.ok (), proxy := p, cancelFired := true }
          | some e => { res := GoResult.err e, proxy := p, cancelFired := true }

/-- Outcomes of the OS calls made by one relay (`handleConnection`):
`dial` is the result of `net.Dial("tcp", p.TargetAddress)` for this
relay, and `closeConn c` is the result of `c.Close()` (`none` = success). -/
structure RelayEnv where
  dial : Except NetError ConnId
  closeConn : ConnId → Option NetError

/-- Everything one relay produces: the error value `handleConnection`
returns (`none` = nil), how many times `Close` was called on the
upstream and on the downstream connection, and whether both copy
directions ran to completion (`wg.Wait` returned). -/
structure RelayResult where
  res : Option NetError
  upstreamCloseCalls : Nat
  downstreamCloseCalls : Nat
  copiesCompleted : Bool
deriving DecidableEq, Repr

/-- `TCPProxy.handleConnection` (proxy.go lines 17-40): dial the target;
on dial error return that error (nothing is closed); otherwise run the
two `io.Copy` goroutines and wait for both; then close the downstream
connection, returning its error if it fails; then close the upstream
connection, returning its error if it fails; then return nil. -/
def handleConnection (env : RelayEnv) (upstream : ConnId) : RelayResult :=
  match env.dial with
  | Except.error e =>
      { res := some e, upstreamCloseCalls := 0, downstreamCloseCalls := 0,
        copiesCompleted := false }
  | Except.ok downstream =>
      match env.closeConn downstream with
      | some e =>
          { res := some e, upstreamCloseCalls := 0, downstreamCloseCalls := 1,
            copiesCompleted := true }
      | none =>
          match env.closeConn upstream with
          | some e =>
              { res := some e, upstreamCloseCalls := 1, downstreamCloseCalls := 1,
                copiesCompleted := true }
          | none =>
              { res := none, upstreamCloseCalls := 1, downstreamCloseCalls := 1,
                copiesCompleted := true }

/-- One iteration of the accept loop as the `select` observes it:
either the cancellation signal has fired, or `Accept` returned a
connection, or `Accept` returned an error. -/
inductive RunEvent where
  | ctxDone
  | accepted (c : ConnId)
  | acceptErr (e : NetError)
deriving DecidableEq, Repr

/-- How a (prefix of an) accept-loop execution ends: `terminated e`
means the loop returned the error `e`; `running` means the supplied
schedule was exhausted with the loop still iterating. -/
inductive LoopResult where
  | terminated (e : NetError)
  | running
deriving DecidableEq, Repr

/-- The non-nil error `ctx.Err()` reports once the context is done. -/
def ctxCanceled : NetError := { msg := "context canceled" }

/-- `TCPProxy.Run` (proxy.go lines 65-78) over a schedule of iteration
events: on `ctx.Done()` return `ctx.Err()`; on an `Accept` error return
it; on an accepted connection spawn `go p.handleConnection(conn)`
(recorded in the second component, result discarded) and loop.  Both
return paths of the Go loop return a non-nil error; the loop has no
normal exit. -/
def TCPProxy.Run : List RunEvent → LoopResult × List ConnId
  | [] => (LoopResult.running, [])
  | RunEvent.ctxDone :: _ => (LoopResult.terminated ctxCanceled, [])
  | RunEvent.acceptErr e :: _ => (LoopResult.terminated e, [])
  | RunEvent.accepted c :: rest =>
      ((TCPProxy.Run rest).1, c :: (TCPProxy.Run rest).2)

/-- Everything a caller of the proxy can observe from a whole lifetime
(Start, then the spawned accept loop and its spawned relays, then
Close): only the return values of `Start` and `Close`.  `Run` is
spawned by `go p.Run(cancelCtx)` and `handleConnection` by
`go p.handleConnection(conn)`, so their results are computed and
discarded, and the code contains no logging. -/
def proxyObservables (net : NetEnv) (relay : RelayEnv) (p : TCPProxy)
    (cancelId : Nat) (sched : List RunEvent) : GoResult Unit × GoResult Unit :=
  let so := TCPProxy.Start net cancelId p
  let discarded :=
    if so.didLaunchLoop then
      let runOut := TCPProxy.Run sched
      (some runOut.1, runOut.2.map fun c => (handleConnection relay c).res)
    else (none, [])
  let co := TCPProxy.Close net so.proxy
  let _ := discarded
  (so.res, co.res)

/-- The operations a user can perform on a proxy value. -/
inductive LifeOp where
  | start (cancelId : Nat)
  | close
deriving DecidableEq, Repr

/-- A proxy value together with the history facts the spec invariant
speaks about: whether an accept loop has ever been launched and whether
the proxy has been shut down (a `Close` fired the cancellation signal,
which terminates the loop). -/
structure Life where
  proxy : TCPProxy
  loopLaunched : Bool
  closedDown : Bool
deriving DecidableEq, Repr

/-- A freshly constructed proxy value: both unexported fields are nil. -/
def lifeInit (la ta : String) : Life :=
  { proxy := { ListenAddress := la, TargetAddress := ta, listener := none, cancel := none },
    loopLaunched := false, closedDown := false }

/-- Apply one user operation to a proxy value, tracking the history. -/
def lifeStep (net : NetEnv) (s : Life) : LifeOp → Life
  | LifeOp.start cancelId =>
      let o := TCPProxy.Start net cancelId s.proxy
      { proxy := o.proxy, loopLaunched := s.loopLaunched || o.didLaunchLoop,
        closedDown := s.closedDown }
  | LifeOp.close =>
      let o := TCPProxy.Close net s.proxy
      { proxy := o.proxy, loopLaunched := s.loopLaunched,
        closedDown := s.closedDown || o.cancelFired }

/-- The spec's §3 invariant, literally: the stored listener is non-empty
iff the accept loop is currently running or has run and not yet been
closed (shut down by `Close`). -/
def specInvariant (s : Life) : Bool :=
  s.proxy.listener.isSome == (s.loopLaunched && !s.closedDown)

/-- The invariant the code actually maintains: the stored listener is
non-empty iff an accept loop was ever launched, whether or not the proxy
has since been closed. -/
def codeInvariant (s : Life) : Bool :=
  s.proxy.listener.isSome == s.loopLaunched

/-- `io.Copy(dst, src)` at the byte level: append the source's bytes to
what has been written to the destination, one byte at a time, in order,
until end of stream. -/
def ioCopy : List Nat → List Nat → List Nat
  | written, [] => written
  | written, b :: src => ioCopy (written ++ [b]) src

/-- The byte streams entering a relay: what the client has written on
the upstream connection and what the backend has written on the
downstream connection. -/
structure RelayWires where
  clientBytes : List Nat
  backendBytes : List Nat
deriving DecidableEq, Repr

/-- The two copy goroutines of `handleConnection` at the byte level:
`io.Copy(downstreamConn, upstreamConn)` delivers the client's bytes to
the backend, and `io.Copy(upstreamConn, downstreamConn)` delivers the
backend's bytes to the client.  First component: bytes the backend
reads; second: bytes the client reads. -/
def relayBytes (w : RelayWires) : List Nat × List Nat :=
  (ioCopy [] w.clientBytes, ioCopy [] w.backendBytes)

/-! Concrete environments and proxy values used by witnesses and
counterexamples. -/

/-- An environment where binding and listener close always succeed. -/
def netOk : NetEnv :=
  { listen := fun _ => Except.ok { id := 1 }, closeListener := fun _ => none }

/-- An environment where binding always fails. -/
def netBindFail : NetEnv :=
  { listen := fun _ => Except.error { msg := "address in use" },
    closeListener := fun _ => none }

/-- A freshly constructed proxy value, as a caller builds it. -/
def pFresh : TCPProxy :=
  { ListenAddress := "127.0.0.1:19000", TargetAddress := "127.0.0.1:9",
    listener := none, cancel := none }

/-- A proxy value that already holds a listener and cancel function. -/
def pStarted : TCPProxy :=
  { ListenAddress := "127.0.0.1:19000", TargetAddress := "127.0.0.1:9",
    listener := some { id := 1 }, cancel := some 0 }

/-- A relay environment whose dial to the target fails. -/
def relayDialFail : RelayEnv :=
  { dial := Except.error { msg := "connection refused" }, closeConn := fun _ => none }

/-- A relay environment where the dial succeeds (downstream connection 2)
and closing the downstream connection fails. -/
def relayCloseFail : RelayEnv :=
  { dial := Except.ok { id := 2 },
    closeConn := fun c => if c.id == 2 then some { msg := "close failed" } else none }

/-- A relay environment where the dial succeeds and both closes succeed. -/
def relayOk : RelayEnv :=
  { dial := Except.ok { id := 2 }, closeConn := fun _ => none }

/-! The claims. -/

/-- Claim C1: the spec says that for every Proxy value on which `Start`
was never called, calling `Close` succeeds without error.  The code
instead executes `p.cancel()` before its nil check on the listener, and
on a never-started proxy the stored cancel function is nil, so the call
panics: this theorem evaluates `Close` at every never-started proxy and
shows it panics rather than returning nil. -/
theorem close_never_started_panics (net : NetEnv) (la ta : String) :
    (TCPProxy.Close net
      { ListenAddress := la, TargetAddress := ta, listener := none, cancel := none }).res
      = GoResult.panicked := rfl

/-- Claim C2 counterexample: with the dial failing, the relay performs
zero `Close` calls on the upstream connection, refuting the claim that
the upstream connection is closed on dial failure. -/
theorem dial_failure_upstream_not_closed_cex :
    (handleConnection relayDialFail { id := 0 }).upstreamCloseCalls = 0 ∧
    (handleConnection relayDialFail { id := 0 }).res
      = some { msg := "connection refused" } := by
  exact ⟨rfl, rfl⟩

/-- Claim C2 (amended): if dialing the target fails, the relay
terminates returning the dial error with the upstream connection left
open (no `Close` call on either connection), and the failure is not
propagated as a fatal proxy error: everything a caller of the proxy can
observe is independent of the relay environment. -/
theorem dial_failure_behaviour (env : RelayEnv) (c : ConnId) (e : NetError)
    (h : env.dial = Except.error e) :
    handleConnection env c =
      { res := some e, upstreamCloseCalls := 0, downstreamCloseCalls := 0,
        copiesCompleted := false } ∧
    (∀ (net : NetEnv) (p : TCPProxy) (cancelId : Nat) (sched : List RunEvent)
        (relay2 : RelayEnv),
      proxyObservables net env p cancelId sched
        = proxyObservables net relay2 p cancelId sched) := by
  refine ⟨?_, fun _ _ _ _ _ => rfl⟩
  simp [handleConnection, h]

/-- Witness for C2's amended theorem at a concrete relay environment. -/
theorem dial_failure_behaviour_witness :
    relayDialFail.dial = Except.error { msg := "connection refused" } ∧
    (handleConnection relayDialFail { id := 3 } =
      { res := some { msg := "connection refused" }, upstreamCloseCalls := 0,
        downstreamCloseCalls := 0, copiesCompleted := false } ∧
    (∀ (net : NetEnv) (p : TCPProxy) (cancelId : Nat) (sched : List RunEvent)
        (relay2 : RelayEnv),
      proxyObservables net relayDialFail p cancelId sched
        = proxyObservables net relay2 p cancelId sched)) :=
  ⟨rfl, dial_failure_behaviour relayDialFail { id := 3 }
    { msg := "connection refused" } rfl⟩

/-- Claim C3 counterexample: the dial succeeded and both copy directions
completed, the downstream close failed, and the upstream connection was
then never closed: the downstream close failure did prevent the upstream
close, refuting the claim. -/
theorem downstream_close_failure_skips_upstream_cex :
    (handleConnection relayCloseFail { id := 1 }).copiesCompleted = true ∧
    (handleConnection relayCloseFail { id := 1 }).downstreamCloseCalls = 1 ∧
    (handleConnection relayCloseFail { id := 1 }).upstreamCloseCalls = 0 := by
  exact ⟨rfl, rfl, rfl⟩

/-- Claim C3 (amended): for every relay whose dial succeeded, after both
copy directions complete the downstream connection is closed exactly
once; the upstream connection is closed exactly once if the downstream
close succeeded, and is not closed at all if the downstream close
failed, in which case that failure is the relay's returned error. -/
theorem relay_teardown (env : RelayEnv) (c d : ConnId)
    (h : env.dial = Except.ok d) :
    (handleConnection env c).copiesCompleted = true ∧
    (handleConnection env c).downstreamCloseCalls = 1 ∧
    (env.closeConn d = none →
      (handleConnection env c).upstreamCloseCalls = 1 ∧
      (handleConnection env c).res = env.closeConn c) ∧
    (∀ e, env.closeConn d = some e →
      (handleConnection env c).upstreamCloseCalls = 0 ∧
      (handleConnection env c).res = some e) := by
  refine ⟨?_, ?_, ?_, ?_⟩ <;>
    simp only [handleConnection, h] <;>
    cases hd : env.closeConn d <;> simp [hd] <;>
    cases hc : env.closeConn c <;> simp [hc]

/-- Witness for C3's amended theorem at a concrete relay environment. -/
theorem relay_teardown_witness :
    relayOk.dial = Except.ok { id := 2 } ∧
    ((handleConnection relayOk { id := 1 }).copiesCompleted = true ∧
    (handleConnection relayOk { id := 1 }).downstreamCloseCalls = 1 ∧
    (relayOk.closeConn { id := 2 } = none →
      (handleConnection relayOk { id := 1 }).upstreamCloseCalls = 1 ∧
      (handleConnection relayOk { id := 1 }).res = relayOk.closeConn { id := 1 }) ∧
    (∀ e, relayOk.closeConn { id := 2 } = some e →
      (handleConnection relayOk { id := 1 }).upstreamCloseCalls = 0 ∧
      (handleConnection relayOk { id := 1 }).res = some e)) :=
  ⟨rfl, relay_teardown relayOk { id := 1 } { id := 2 } rfl⟩

/-- Claim C4: `Start` is idempotent.  For every proxy that already holds
a listener (as every proxy on which `Start` succeeded does), a second
`Start` returns success immediately, performs no second bind, launches
no second accept loop, and leaves the stored listener and cancel
function unchanged. -/
theorem start_idempotent (net : NetEnv) (cancelId : Nat) (p : TCPProxy)
    (l : Listener) (h : p.listener = some l) :
    TCPProxy.Start net cancelId p =
      { res := GoResult.ok (), proxy := p, didBind := false,
        didLaunchLoop := false } := by
  simp [TCPProxy.Start, h]

/-- Witness for C4 at a concrete already-started proxy value. -/
theorem start_idempotent_witness :
    pStarted.listener = some { id := 1 } ∧
    TCPProxy.Start netOk 7 pStarted =
      { res := GoResult.ok (), proxy := pStarted, didBind := false,
        didLaunchLoop := false } :=
  ⟨rfl, start_idempotent netOk 7 pStarted { id := 1 } rfl⟩

/-- Claim C5: `Start` returns an error exactly when it attempts the bind
(no listener is stored yet) and `net.Listen` fails, and the error it
returns is the bind error; in that case the proxy keeps its pre-`Start`
state: no listener stored, no cancel function created, no accept loop
launched. -/
theorem start_error_characterization (net : NetEnv) (cancelId : Nat)
    (p : TCPProxy) (e : NetError) :
    ((TCPProxy.Start net cancelId p).res = GoResult.err e ↔
      p.listener = none ∧ net.listen p.ListenAddress = Except.error e) ∧
    ((TCPProxy.Start net cancelId p).res = GoResult.err e →
      TCPProxy.Start net cancelId p =
        { res := GoResult.err e, proxy := p, didBind := false,
          didLaunchLoop := false }) := by
  cases hl : p.listener with
  | some l => simp [TCPProxy.Start, hl]
  | none =>
      cases hls : net.listen p.ListenAddress with
      | error e0 => simp [TCPProxy.Start, hl, hls]
      | ok l => simp [TCPProxy.Start, hl, hls]

/-- Witness for C5: a concrete bind failure returns the bind error and
leaves the fresh proxy untouched. -/
theorem start_error_characterization_witness :
    TCPProxy.Start netBindFail 0 pFresh =
      { res := GoResult.err { msg := "address in use" }, proxy := pFresh,
        didBind := false, didLaunchLoop := false } :=
  (start_error_characterization netBindFail 0 pFresh
    { msg := "address in use" }).2 rfl

/-- Claim C6 counterexample: the spec's invariant (`listener` non-empty
iff the accept loop is running or has run and not yet been closed) is
broken by `Close`: after a successful `Start` followed by `Close`, the
loop has been shut down but the listener field still holds the closed
listener. -/
theorem spec_invariant_broken_by_close_cex :
    specInvariant
      (lifeStep netOk
        (lifeStep netOk (lifeInit "127.0.0.1:19000" "127.0.0.1:9")
          (LifeOp.start 0))
        LifeOp.close) = false := rfl

/-- Claim C6 (amended): the invariant every operation actually preserves
is that the stored listener is non-empty iff an accept loop has ever
been launched, regardless of whether `Close` has since shut it down;
construction establishes it, `Start` and `Close` preserve it, and
`Start` is a no-op (not a second bind) whenever the listener is
present. -/
theorem code_invariant_preserved (net : NetEnv) (s : Life) (op : LifeOp)
    (h : codeInvariant s = true) :
    codeInvariant (lifeStep net s op) = true ∧
    (∀ la ta, codeInvariant (lifeInit la ta) = true) ∧
    (∀ cancelId l, s.proxy.listener = some l →
      TCPProxy.Start net cancelId s.proxy =
        { res := GoResult.ok (), proxy := s.proxy, didBind := false,
          didLaunchLoop := false }) := by
  refine ⟨?_, fun la ta => rfl, fun cancelId l hl => by simp [TCPProxy.Start, hl]⟩
  cases op with
  | start cancelId =>
      cases hl : s.proxy.listener with
      | some l =>
          have hL : s.loopLaunched = true := by
            simpa [codeInvariant, hl] using h
          simp [lifeStep, TCPProxy.Start, hl, codeInvariant, hL]
      | none =>
          have hL : s.loopLaunched = false := by
            simpa [codeInvariant, hl] using h
          cases hls : net.listen s.proxy.ListenAddress with
          | error e => simp [lifeStep, TCPProxy.Start, hl, hls, codeInvariant, hL]
          | ok l => simp [lifeStep, TCPProxy.Start, hl, hls, codeInvariant, hL]
  | close =>
      cases hc : s.proxy.cancel with
      | none => simpa [lifeStep, TCPProxy.Close, hc, codeInvariant] using h
      | some t =>
          cases hl : s.proxy.listener with
          | none => simpa [lifeStep, TCPProxy.Close, hc, hl, codeInvariant] using h
          | some l =>
              cases hcl : net.closeListener l with
              | none =>
                  simpa [lifeStep, TCPProxy.Close, hc, hl, hcl, codeInvariant] using h
              | some e =>
                  simpa [lifeStep, TCPProxy.Close, hc, hl, hcl, codeInvariant] using h

/-- Witness for C6's amended theorem on a concrete lifecycle state. -/
theorem code_invariant_preserved_witness :
    codeInvariant (lifeInit "127.0.0.1:19000" "127.0.0.1:9") = true ∧
    (codeInvariant
      (lifeStep netOk (lifeInit "127.0.0.1:19000" "127.0.0.1:9")
        (LifeOp.start 0)) = true ∧
    (∀ la ta, codeInvariant (lifeInit la ta) = true) ∧
    (∀ cancelId l,
      (lifeInit "127.0.0.1:19000" "127.0.0.1:9").proxy.listener = some l →
      TCPProxy.Start netOk cancelId
          (lifeInit "127.0.0.1:19000" "127.0.0.1:9").proxy =
        { res := GoResult.ok (),
          proxy := (lifeInit "127.0.0.1:19000" "127.0.0.1:9").proxy,
          didBind := false, didLaunchLoop := false })) :=
  ⟨rfl, code_invariant_preserved netOk
    (lifeInit "127.0.0.1:19000" "127.0.0.1:9") (LifeOp.start 0) rfl⟩

/-- Claim C7: each iteration of the accept loop either observes the
cancellation signal and terminates returning `ctx.Err()`, or accepts a
connection, spawns a relay and continues, or hits any accept error and
terminates immediately with nothing further processed; and nothing the
loop does — including how it terminates — is visible in the results any
caller of the proxy receives. -/
theorem run_loop_step_behaviour :
    (∀ e rest, TCPProxy.Run (RunEvent.acceptErr e :: rest)
      = (LoopResult.terminated e, [])) ∧
    (∀ rest, TCPProxy.Run (RunEvent.ctxDone :: rest)
      = (LoopResult.terminated ctxCanceled, [])) ∧
    (∀ c rest, TCPProxy.Run (RunEvent.accepted c :: rest)
      = ((TCPProxy.Run rest).1, c :: (TCPProxy.Run rest).2)) ∧
    (∀ (net : NetEnv) (relay : RelayEnv) (p : TCPProxy) (cancelId : Nat)
        (sched sched2 : List RunEvent),
      proxyObservables net relay p cancelId sched
        = proxyObservables net relay p cancelId sched2) :=
  ⟨fun _ _ => rfl, fun _ => rfl, fun _ _ => rfl, fun _ _ _ _ _ _ => rfl⟩

/-- `io.Copy` delivers exactly the source bytes, appended in order. -/
theorem ioCopy_eq_append (src : List Nat) :
    ∀ written, ioCopy written src = written ++ src := by
  induction src with
  | nil => intro written; simp [ioCopy]
  | cons b rest ih => intro written; simp [ioCopy, ih]

/-- Claim C8: byte-fidelity of the relay.  Whatever byte sequence the
client writes is exactly what the backend reads, unmodified and in
order, and symmetrically for the backend's bytes toward the client; the
relay never inspects or transforms payload bytes. -/
theorem relay_byte_fidelity (w : RelayWires) :
    (relayBytes w).1 = w.clientBytes ∧ (relayBytes w).2 = w.backendBytes := by
  constructor <;> simp [relayBytes, ioCopy_eq_append]

/-- Claim C9: `Close` assigns to no field of the proxy, so the listener
field survives `Close`; therefore after a successful `Start` followed by
`Close`, every subsequent `Start` sees the stale listener, returns
success immediately, binds nothing and launches no accept loop: a
closed proxy can never be restarted. -/
theorem closed_proxy_cannot_restart (net : NetEnv) (cancelId cancelId2 : Nat)
    (p : TCPProxy) (l : Listener)
    (h : p.listener = none) (hl : net.listen p.ListenAddress = Except.ok l) :
    (TCPProxy.Close net (TCPProxy.Start net cancelId p).proxy).proxy
      = (TCPProxy.Start net cancelId p).proxy ∧
    (TCPProxy.Close net (TCPProxy.Start net cancelId p).proxy).proxy.listener
      = some l ∧
    TCPProxy.Start net cancelId2
        (TCPProxy.Close net (TCPProxy.Start net cancelId p).proxy).proxy
      = { res := GoResult.ok (),
          proxy := (TCPProxy.Start net cancelId p).proxy,
          didBind := false, didLaunchLoop := false } := by
  have hs : TCPProxy.Start net cancelId p =
      { res := GoResult.ok (),
        proxy := { p with listener := some l, cancel := some cancelId },
        didBind := true, didLaunchLoop := true } := by
    simp [TCPProxy.Start, h, hl]
  have hcp : (TCPProxy.Close net (TCPProxy.Start net cancelId p).proxy).proxy
      = (TCPProxy.Start net cancelId p).proxy := by
    rw [hs]
    cases hcl : net.closeListener l <;> simp [TCPProxy.Close, hcl]
  refine ⟨hcp, ?_, ?_⟩
  · rw [hcp, hs]
  · rw [hcp, hs]
    simp [TCPProxy.Start]

/-- Witness for C9 on a fresh proxy in an all-success environment. -/
theorem closed_proxy_cannot_restart_witness :
    pFresh.listener = none ∧
    netOk.listen pFresh.ListenAddress = Except.ok { id := 1 } ∧
    ((TCPProxy.Close netOk (TCPProxy.Start netOk 0 pFresh).proxy).proxy
      = (TCPProxy.Start netOk 0 pFresh).proxy ∧
    (TCPProxy.Close netOk (TCPProxy.Start netOk 0 pFresh).proxy).proxy.listener
      = some { id := 1 } ∧
    TCPProxy.Start netOk 1
        (TCPProxy.Close netOk (TCPProxy.Start netOk 0 pFresh).proxy).proxy
      = { res := GoResult.ok (),
          proxy := (TCPProxy.Start netOk 0 pFresh).proxy,
          didBind := false, didLaunchLoop := false }) :=
  ⟨rfl, rfl, closed_proxy_cannot_restart netOk 0 1 pFresh { id := 1 } rfl rfl⟩

/-- Claim C10: `handleConnection` returns its per-connection errors —
the dial error on a failed dial, and a close error on a failed close —
but the accept loop spawns it with `go` and discards the result, so
everything a caller or observer of the proxy can see is identical under
arbitrarily different relay outcomes: no per-connection error is ever
visible. -/
theorem per_connection_errors_invisible :
    (∀ (e : NetError) (cl : ConnId → Option NetError) (c : ConnId),
      (handleConnection { dial := Except.error e, closeConn := cl } c).res
        = some e) ∧
    (∀ (d : ConnId) (e : NetError) (c : ConnId),
      (handleConnection
        { dial := Except.ok d, closeConn := fun _ => some e } c).res
        = some e) ∧
    (∀ (net : NetEnv) (relay relay2 : RelayEnv) (p : TCPProxy)
        (cancelId : Nat) (sched : List RunEvent),
      proxyObservables net relay p cancelId sched
        = proxyObservables net relay2 p cancelId sched) :=
  ⟨fun _ _ _ => rfl, fun _ _ _ => rfl, fun _ _ _ _ _ _ => rfl⟩

end Mockestra.Proxy
